import Mathlib

/-!
# Verification of the gold-buyers-qr-printing polling/print service

Shallow embedding of the polling service (`src/services/polling.ts`), the
print queue (`src/services/print-queue.ts`) and the configuration loading,
with theorems settling the specification claims about backoff, the poll
state machine, batch printing and error handling.

Conventions of the embedding:
* Durations are in milliseconds, modelled as `Nat`.
* The JSON `count` field is a JavaScript number; the claims only concern
  integral values, so it is modelled as `Int`.
* I/O collaborators (HTTP fetch, the renderer+printer device, the print
  callback) are passed in as explicit outcome values or oracles, so each
  poll tick / batch run is a pure function of the state and those outcomes.
-/

namespace GBPrint

/-! ## Configuration (PollingService constructor, polling.ts lines 51-58) -/

/-- Polling service configuration (interface `PollingConfig`).  The
`apiEndpoint` string plays no role in the control flow and is omitted. -/
structure PollingConfig where
  pollInterval : Nat
  maxRetries : Nat
  retryDelay : Nat
  deriving Repr, DecidableEq

/-- Configuration loading from the environment, from the constructor:
`parseInt(process.env.POLL_INTERVAL || '5000', 10)` etc.  An absent (or
empty) environment variable is `none`; a variable holding the decimal
string for `n` is `some n`. -/
def loadConfig (pollIntervalEnv maxRetriesEnv retryDelayEnv : Option Nat) :
    PollingConfig where
  pollInterval := pollIntervalEnv.getD 5000
  maxRetries := maxRetriesEnv.getD 5
  retryDelay := retryDelayEnv.getD 5000

/-! ## Poll scheduling (scheduleNextPoll, polling.ts lines 116-134) -/

/-- The delay computed by `scheduleNextPoll` before the next poll tick:
the fixed poll interval when there are no consecutive errors, otherwise
`retryDelay * 2 ^ min (consecutiveErrors - 1) 5` (exponential backoff,
multiplier capped at `2^5 = 32`). -/
def nextPollDelay (cfg : PollingConfig) (consecutiveErrors : Nat) : Nat :=
  if consecutiveErrors > 0 then
    cfg.retryDelay * 2 ^ (min (consecutiveErrors - 1) 5)
  else
    cfg.pollInterval

/-! ## Remote fetch (fetchLabelCount, polling.ts lines 172-203) -/

/-- Shape of the `count` field in the parsed response body. -/
inductive CountField where
  | missing
  | nonNumeric
  | numeric (n : Int)
  deriving Repr, DecidableEq

/-- An HTTP response as observed by `fetchLabelCount`: whether
`response.ok` held, whether the body parsed as JSON, and the shape of the
`count` field of the parsed object. -/
structure HttpResponse where
  ok : Bool
  parseOk : Bool
  count : CountField
  deriving Repr, DecidableEq

/-- Outcome of the network round trip: either a transport-level error
(network failure or the 10 s abort timeout), or a response. -/
inductive FetchOutcome where
  | networkError
  | response (r : HttpResponse)
  deriving Repr, DecidableEq

/-- `fetchLabelCount`: throws (here `Except.error`) on a transport error,
a non-ok status, a body that fails to parse, or a missing/non-numeric
`count` field; otherwise returns the numeric `count` value.  Note that no
range check is performed on the number itself. -/
def fetchLabelCount : FetchOutcome → Except Unit Int
  | .networkError => .error ()
  | .response r =>
    if !r.ok then .error ()
    else if !r.parseOk then .error ()
    else
      match r.count with
      | .numeric n => .ok n
      | _ => .error ()

/-! ## Poll state and the poll step (polling.ts lines 37-42, 139-167, 208-221, 226-246) -/

/-- Polling service state (interface `PollingState`).  `lastPollTime` is a
millisecond timestamp. -/
structure PollingState where
  isRunning : Bool
  isPrinting : Bool
  consecutiveErrors : Nat
  lastPollTime : Option Nat
  deriving Repr, DecidableEq

/-- Record of a dispatch performed by `handlePrintRequest` during a poll
tick: the count handed to the print callback, the value of
`consecutiveErrors` at the moment the dispatch starts, and whether the
print callback succeeded. -/
structure DispatchRecord where
  count : Int
  errorsAtStart : Nat
  printOk : Bool
  deriving Repr, DecidableEq

/-- Observable outcome of one call to `poll`: the state after the call,
whether a network request was issued (`fetchLabelCount` called), and the
dispatch performed, if any. -/
structure PollOutcome where
  state : PollingState
  fetched : Bool
  dispatched : Option DispatchRecord
  deriving Repr, DecidableEq

/-- One call to `poll` (polling.ts lines 139-167), given the current time,
the outcome the network would produce, and the outcome the print callback
would produce.

* If `isPrinting` it returns immediately: no request, no state change.
* Otherwise it stamps `lastPollTime`, fetches, and:
  * on a fetch error, `handlePollError` increments `consecutiveErrors`
    (the `maxRetries` comparison only selects a log message);
  * on success with `count > 0`, `handlePrintRequest` sets `isPrinting`,
    runs the callback, and clears `isPrinting` in its `finally`; print
    errors do not touch `consecutiveErrors`; then `poll` resets
    `consecutiveErrors` to 0 (the reset happens after the dispatch);
  * on success with `count <= 0` it logs "No labels to print" and resets
    `consecutiveErrors` to 0. -/
def poll (s : PollingState) (now : Nat) (fetch : FetchOutcome)
    (printOk : Bool) : PollOutcome :=
  if s.isPrinting then
    ⟨s, false, none⟩
  else
    let s0 : PollingState := { s with lastPollTime := some now }
    match fetchLabelCount fetch with
    | .error _ =>
      ⟨{ s0 with consecutiveErrors := s0.consecutiveErrors + 1 }, true, none⟩
    | .ok n =>
      if n > 0 then
        ⟨{ s0 with consecutiveErrors := 0 }, true,
          some ⟨n, s.consecutiveErrors, printOk⟩⟩
      else
        ⟨{ s0 with consecutiveErrors := 0 }, true, none⟩

/-! ## Print queue (PrintQueueManager, print-queue.ts)

`printSingleLabel` generates a fresh UUIDv7 token and a random 8-character
human code, builds the identifier `gbtid://uuid:humanId`, and hands it to
the renderer+transport (`generator.print`).

Modelled from the spec: the `uuid` library's `v7()` (library code, not in
this repository) is the spec's Identifier Generator — "a time-ordered
unique token", "uniqueness must hold across the lifetime of the process".
It is modelled as a supply with state `gen : Nat` whose each call returns
the current token and advances the state, so successive calls yield
strictly increasing (hence pairwise distinct) tokens.  The human code does
not affect distinctness (the uuid component already distinguishes two
`gbtid` identifiers) and is left abstract.  The second `v7()` call inside
`generateQRCode` only names the temporary image file and is absorbed into
the device oracle. -/

/-- Outcome of one render+transport round trip for a label
(`generator.print`): success, a failure whose message contains
`'printer'`/`'Brother'`, or any other failure. -/
inductive DeviceResult where
  | ok
  | printerErr
  | otherErr
  deriving Repr, DecidableEq

/-- Batch printing errors thrown by `printLabels`/`printSingleLabel`.
`labelFailed index total printerKind` records the failing label index
cited by the failure log `Failed to print label current/total` (always
emitted) — when `printerKind` is true the rethrown error message also
embeds it (`Printer error on label current/total`). -/
inductive BatchError where
  | validation
  | busy
  | labelFailed (index total : Nat) (printerKind : Bool)
  deriving Repr, DecidableEq

/-- `printSingleLabel current total` with uuid-supply state `gen`: returns
the label handed to the pipeline — as the pair (1-based index, uuid
token) — and the propagated result. -/
def printSingleLabel (gen current total : Nat) (res : DeviceResult) :
    (Nat × Nat) × Except BatchError Unit :=
  ((current, gen),
    match res with
    | .ok => .ok ()
    | .printerErr => .error (.labelFailed current total true)
    | .otherErr => .error (.labelFailed current total false))

/-- The sequential loop of `printLabels`
(`for (let i = 0; i < count; i++) await printSingleLabel(i + 1, count)`),
structured over the number of remaining iterations.  `device i` is the
round-trip outcome for the `i`-th (1-based) label.  Returns the list of
labels handed to the pipeline in call order, the propagated result, and
the uuid-supply state afterwards (a failing label has already consumed
its uuid before the device call). -/
def printLoop (device : Nat → DeviceResult) (total : Nat) :
    Nat → Nat → Nat → List (Nat × Nat) × Except BatchError Unit × Nat
  | gen, _current, 0 => ([], .ok (), gen)
  | gen, current, remaining + 1 =>
    let (label, res) := printSingleLabel gen current total (device current)
    match res with
    | .ok _ =>
      let (rest, out, gen2) := printLoop device total (gen + 1) (current + 1) remaining
      (label :: rest, out, gen2)
    | .error e => ([label], .error e, gen + 1)

/-- Result of one call to `printLabels`: the labels handed to the
renderer+transport pipeline in order, the call's result, the `isPrinting`
flag after the call returns, and the uuid-supply state afterwards. -/
structure BatchRun where
  attempted : List (Nat × Nat)
  result : Except BatchError Unit
  isPrintingAfter : Bool
  genAfter : Nat

/-- `printLabels` (print-queue.ts lines 38-67): validates
`1 <= count <= 500` (else throws, before any side effect), then rejects if
`isPrinting` (busy guard, before any side effect), then sets `isPrinting`,
prints each label sequentially — a label failure propagates out of the
loop — and clears `isPrinting` in its `finally`. -/
def printLabels (isPrinting : Bool) (gen : Nat) (count : Int)
    (device : Nat → DeviceResult) : BatchRun :=
  if count < 1 ∨ count > 500 then
    ⟨[], .error .validation, isPrinting, gen⟩
  else if isPrinting then
    ⟨[], .error .busy, isPrinting, gen⟩
  else
    let r := printLoop device count.toNat gen 1 count.toNat
    ⟨r.1, r.2.1, false, r.2.2⟩

end GBPrint

namespace GBPrint

/-! ## Claim C1: exponential backoff -/

/-- C1.  With at least one consecutive failure, the delay before the next
poll tick is `retryDelay * 2 ^ min (n - 1) 5`; with the default
`retryDelay = 5000` ms the sequence is 5000, 10000, 20000, 40000, 80000,
160000, 160000 (capped at a 32x multiplier), and the delay is monotone in
the failure count. -/
theorem backoff_formula_and_sequence :
    (∀ (cfg : PollingConfig) (n : Nat), 1 ≤ n →
        nextPollDelay cfg n = cfg.retryDelay * 2 ^ (min (n - 1) 5)) ∧
    (nextPollDelay (loadConfig none none none) 1 = 5000 ∧
      nextPollDelay (loadConfig none none none) 2 = 10000 ∧
      nextPollDelay (loadConfig none none none) 3 = 20000 ∧
      nextPollDelay (loadConfig none none none) 4 = 40000 ∧
      nextPollDelay (loadConfig none none none) 5 = 80000 ∧
      nextPollDelay (loadConfig none none none) 6 = 160000 ∧
      nextPollDelay (loadConfig none none none) 7 = 160000) ∧
    (∀ (cfg : PollingConfig) (m n : Nat), 1 ≤ m → m ≤ n →
        nextPollDelay cfg m ≤ nextPollDelay cfg n) := by
  refine ⟨?_, ?_, ?_⟩
  · intro cfg n hn
    simp [nextPollDelay, Nat.lt_of_lt_of_le Nat.zero_lt_one hn]
  · exact ⟨rfl, rfl, rfl, rfl, rfl, rfl, rfl⟩
  · intro cfg m n hm hmn
    have hm' : 0 < m := hm
    have hn' : 0 < n := Nat.lt_of_lt_of_le hm' hmn
    simp only [nextPollDelay, if_pos hm', if_pos hn']
    exact Nat.mul_le_mul le_rfl
      (Nat.pow_le_pow_right (by norm_num)
        (min_le_min (Nat.sub_le_sub_right hmn 1) le_rfl))

/-- Witness for C1 at a concrete failure count. -/
theorem backoff_formula_and_sequence_witness :
    nextPollDelay (loadConfig none none none) 3 =
        (loadConfig none none none).retryDelay * 2 ^ (min (3 - 1) 5) ∧
      nextPollDelay (loadConfig none none none) 2 ≤
        nextPollDelay (loadConfig none none none) 6 :=
  ⟨backoff_formula_and_sequence.1 (loadConfig none none none) 3 (by decide),
    backoff_formula_and_sequence.2.2 (loadConfig none none none) 2 6
      (by decide) (by decide)⟩

/-! ## Claim C3: default poll interval -/

/-- C3.  With no `POLL_INTERVAL` value supplied in the environment, the
constructor's fallback `parseInt(process.env.POLL_INTERVAL || '5000', 10)`
yields a fixed poll interval of 5000 ms — not the 15000 ms the README
documents ("every 15 seconds", default `15000`) — and that interval is the
delay used between successful polls (`consecutiveErrors = 0`). -/
theorem default_pollInterval_is_5000 :
    (loadConfig none none none).pollInterval = 5000 ∧
      (loadConfig none none none).pollInterval ≠ 15000 ∧
      nextPollDelay (loadConfig none none none) 0 = 5000 :=
  ⟨rfl, by decide, rfl⟩

/-! ## Claim C6: batch size validation -/

/-- C6.  For every `count` outside `[1, 500]`, `printLabels` fails with
the validation error and performs zero renderer/transport calls, leaving
the busy flag and the identifier supply untouched. -/
theorem printLabels_validation (count : Int) (b : Bool) (gen : Nat)
    (device : Nat → DeviceResult) (h : count < 1 ∨ count > 500) :
    (printLabels b gen count device).attempted = [] ∧
      (printLabels b gen count device).result = .error .validation ∧
      (printLabels b gen count device).isPrintingAfter = b ∧
      (printLabels b gen count device).genAfter = gen := by
  simp [printLabels, if_pos h]

/-- Witness for C6 at `count = 501`. -/
theorem printLabels_validation_witness :
    (printLabels false 0 501 (fun _ => .ok)).attempted = [] ∧
      (printLabels false 0 501 (fun _ => .ok)).result = .error .validation ∧
      (printLabels false 0 501 (fun _ => .ok)).isPrintingAfter = false ∧
      (printLabels false 0 501 (fun _ => .ok)).genAfter = 0 :=
  printLabels_validation 501 false 0 (fun _ => .ok) (Or.inr (by decide))

/-! ## Claim C7: busy guard -/

/-- C7.  Calling `printLabels` with a valid `count` while a batch is in
progress fails with the busy error, performs zero renderer/transport
calls (so no labels of the rejected call can interleave with the running
batch), and leaves the state untouched. -/
theorem printLabels_busy (count : Int) (gen : Nat)
    (device : Nat → DeviceResult) (h1 : 1 ≤ count) (h2 : count ≤ 500) :
    (printLabels true gen count device).attempted = [] ∧
      (printLabels true gen count device).result = .error .busy ∧
      (printLabels true gen count device).isPrintingAfter = true ∧
      (printLabels true gen count device).genAfter = gen := by
  have hv : ¬(count < 1 ∨ count > 500) := by omega
  simp [printLabels, if_neg hv]

/-- Witness for C7 at `count = 5`. -/
theorem printLabels_busy_witness :
    (printLabels true 7 5 (fun _ => .ok)).attempted = [] ∧
      (printLabels true 7 5 (fun _ => .ok)).result = .error .busy ∧
      (printLabels true 7 5 (fun _ => .ok)).isPrintingAfter = true ∧
      (printLabels true 7 5 (fun _ => .ok)).genAfter = 7 :=
  printLabels_busy 5 7 (fun _ => .ok) (by decide) (by decide)

/-! ## Claim C8: poll tick while printing -/

/-- C8.  A poll tick that fires while `isPrinting` is true issues no
network request (`fetched = false`) and is a no-op: the state — including
`lastPollTime` — is returned unchanged and nothing is dispatched. -/
theorem poll_skipped_while_printing (s : PollingState) (now : Nat)
    (fetch : FetchOutcome) (printOk : Bool) (h : s.isPrinting = true) :
    poll s now fetch printOk = ⟨s, false, none⟩ := by
  simp [poll, h]

/-- Witness for C8 on a concrete printing state. -/
theorem poll_skipped_while_printing_witness :
    poll ⟨true, true, 2, some 41⟩ 99 (.response ⟨true, true, .numeric 7⟩) true =
      ⟨⟨true, true, 2, some 41⟩, false, none⟩ :=
  poll_skipped_while_printing ⟨true, true, 2, some 41⟩ 99
    (.response ⟨true, true, .numeric 7⟩) true rfl

/-! ## Claim C2: when the failure counter is reset on a dispatching poll -/

/-- Counterexample to C2.  A poll tick on a state with 3 consecutive
failures that fetches `count = 2` starts its dispatch with the failure
counter still at 3, not 0: the reset happens only after the print
callback returns. -/
theorem dispatch_starts_with_stale_counter :
    (poll ⟨true, false, 3, none⟩ 50 (.response ⟨true, true, .numeric 2⟩)
        true).dispatched = some ⟨2, 3, true⟩ ∧
      ¬ (poll ⟨true, false, 3, none⟩ 50 (.response ⟨true, true, .numeric 2⟩)
        true).dispatched = some ⟨2, 0, true⟩ :=
  ⟨rfl, by decide⟩

/-- C2 amended.  On a successful fetch with `count > 0`, the dispatch
starts with `consecutiveErrors` still holding its pre-poll value, and the
counter is 0 only once the whole poll step (dispatch included) has
finished. -/
theorem counter_reset_after_dispatch (s : PollingState) (now : Nat)
    (fetch : FetchOutcome) (printOk : Bool) (n : Int)
    (hp : s.isPrinting = false) (hf : fetchLabelCount fetch = .ok n)
    (hn : n > 0) :
    (poll s now fetch printOk).dispatched =
        some ⟨n, s.consecutiveErrors, printOk⟩ ∧
      (poll s now fetch printOk).state.consecutiveErrors = 0 := by
  simp [poll, hp, hf, hn]

/-- Witness for the amended C2 on a state with 3 prior failures. -/
theorem counter_reset_after_dispatch_witness :
    (poll ⟨true, false, 3, none⟩ 50 (.response ⟨true, true, .numeric 2⟩)
        false).dispatched = some ⟨2, 3, false⟩ ∧
      (poll ⟨true, false, 3, none⟩ 50 (.response ⟨true, true, .numeric 2⟩)
        false).state.consecutiveErrors = 0 :=
  counter_reset_after_dispatch ⟨true, false, 3, none⟩ 50
    (.response ⟨true, true, .numeric 2⟩) false 2 rfl rfl (by decide)

/-! ## Claim C4: negative or missing count -/

/-- Counterexample to C4.  A well-formed response whose `count` is the
number `-1` is NOT treated as a poll failure: the tick resets the failure
counter from 2 to 0 (instead of incrementing it to 3) and dispatches
nothing — exactly the treatment of a successful zero-count poll. -/
theorem negative_count_treated_as_success :
    (poll ⟨true, false, 2, none⟩ 60 (.response ⟨true, true, .numeric (-1)⟩)
        true).state.consecutiveErrors = 0 ∧
      ¬ (poll ⟨true, false, 2, none⟩ 60 (.response ⟨true, true, .numeric (-1)⟩)
        true).state.consecutiveErrors = 3 ∧
      (poll ⟨true, false, 2, none⟩ 60 (.response ⟨true, true, .numeric (-1)⟩)
        true).dispatched = none :=
  ⟨rfl, by decide, rfl⟩

/-- C4 amended.  A missing or non-numeric `count` field is indeed a
uniform poll failure (`fetchLabelCount` rejects it) and every fetch
failure increments `consecutiveErrors` without dispatching; but a
negative numeric `count` passes validation and is handled like a
successful zero-count poll: counter reset to 0, nothing dispatched. -/
theorem missing_count_fails_negative_count_accepted :
    (∀ r : HttpResponse, r.count = .missing ∨ r.count = .nonNumeric →
        fetchLabelCount (.response r) = .error ()) ∧
    (∀ (s : PollingState) (now : Nat) (fetch : FetchOutcome) (printOk : Bool),
        s.isPrinting = false → fetchLabelCount fetch = .error () →
        (poll s now fetch printOk).state.consecutiveErrors =
            s.consecutiveErrors + 1 ∧
          (poll s now fetch printOk).dispatched = none) ∧
    (∀ (s : PollingState) (now : Nat) (fetch : FetchOutcome) (printOk : Bool)
        (n : Int), s.isPrinting = false → fetchLabelCount fetch = .ok n →
        n ≤ 0 →
        (poll s now fetch printOk).state.consecutiveErrors = 0 ∧
          (poll s now fetch printOk).dispatched = none) := by
  refine ⟨?_, ?_, ?_⟩
  · intro r hr
    rcases hr with h | h <;>
      · simp only [fetchLabelCount, h]
        split <;> simp_all
  · intro s now fetch printOk hp hf
    simp [poll, hp, hf]
  · intro s now fetch printOk n hp hf hn
    simp [poll, hp, hf, Int.not_lt.mpr hn]

/-- Witness for the amended C4: a missing-count response increments the
counter; a `count = -1` response resets it. -/
theorem missing_count_fails_negative_count_accepted_witness :
    fetchLabelCount (.response ⟨true, true, .missing⟩) = .error () ∧
      (poll ⟨true, false, 2, none⟩ 60 (.response ⟨true, true, .missing⟩)
          true).state.consecutiveErrors = 3 ∧
      (poll ⟨true, false, 2, none⟩ 60 (.response ⟨true, true, .numeric (-1)⟩)
          true).state.consecutiveErrors = 0 :=
  ⟨missing_count_fails_negative_count_accepted.1 ⟨true, true, .missing⟩
      (Or.inl rfl),
    (missing_count_fails_negative_count_accepted.2.1 ⟨true, false, 2, none⟩ 60
      (.response ⟨true, true, .missing⟩) true rfl rfl).1,
    (missing_count_fails_negative_count_accepted.2.2 ⟨true, false, 2, none⟩ 60
      (.response ⟨true, true, .numeric (-1)⟩) true (-1) rfl rfl
      (by decide)).1⟩

/-! ## The print loop: explicit forms of its runs (shared helper lemmas) -/

/-- Shifting a label-list description by one position. -/
theorem cons_range_map_shift (c g n : Nat) :
    (c, g) :: (List.range n).map (fun j => (c + 1 + j, g + 1 + j)) =
      (List.range (n + 1)).map (fun j => (c + j, g + j)) := by
  rw [List.range_succ_eq_map, List.map_cons, List.map_map]
  refine congrArg₂ _ (by simp) (List.map_congr_left fun j _ => ?_)
  simp only [Function.comp_apply, Nat.succ_eq_add_one, Prod.mk.injEq]
  omega

/-- A run of the print loop whose every round trip succeeds hands over the
labels `(current, gen), (current+1, gen+1), ...`, one per iteration, and
ends successfully with the uuid supply advanced by `fuel`. -/
theorem printLoop_all_ok (device : Nat → DeviceResult) (total : Nat) :
    ∀ fuel gen current : Nat,
      (∀ j, current ≤ j → j < current + fuel → device j = .ok) →
      printLoop device total gen current fuel =
        ((List.range fuel).map (fun j => (current + j, gen + j)),
          Except.ok (), gen + fuel) := by
  intro fuel
  induction fuel with
  | zero => intro gen current _; simp [printLoop]
  | succ fuel ih =>
    intro gen current h
    have hc : device current = .ok := h current le_rfl (by omega)
    have ih' := ih (gen + 1) (current + 1) (fun j h1 h2 => h j (by omega) (by omega))
    simp only [printLoop, printSingleLabel, hc, ih']
    rw [cons_range_map_shift current gen fuel]
    exact congrArg (Prod.mk _) (congrArg (Prod.mk _) (by omega))

/-- A run of the print loop whose first `k` round trips succeed and whose
`(k+1)`-st fails (with a printer-type error iff `b`) attempts exactly the
first `k + 1` labels, propagates the error citing index `current + k`,
and never attempts later labels. -/
theorem printLoop_fail_at (device : Nat → DeviceResult) (total : Nat) :
    ∀ (k fuel gen current : Nat) (b : Bool), k < fuel →
      (∀ j, current ≤ j → j < current + k → device j = .ok) →
      device (current + k) = (if b then .printerErr else .otherErr) →
      printLoop device total gen current fuel =
        ((List.range (k + 1)).map (fun j => (current + j, gen + j)),
          Except.error (.labelFailed (current + k) total b), gen + k + 1) := by
  intro k
  induction k with
  | zero =>
    intro fuel gen current b hk hok hbad
    match fuel, hk with
    | fuel + 1, _ =>
      rw [Nat.add_zero] at hbad
      cases b <;>
        simp_all [printLoop, printSingleLabel, List.range_succ]
  | succ k ih =>
    intro fuel gen current b hk hok hbad
    match fuel, hk with
    | fuel + 1, hk =>
      have hc : device current = .ok := hok current le_rfl (by omega)
      have ih' := ih fuel (gen + 1) (current + 1) b (by omega)
        (fun j h1 h2 => hok j (by omega) (by omega))
        (by rw [show current + 1 + k = current + (k + 1) by omega]; exact hbad)
      simp only [printLoop, printSingleLabel, hc, ih']
      rw [cons_range_map_shift current gen (k + 1),
        show current + 1 + k = current + (k + 1) by omega]
      exact congrArg (Prod.mk _) (congrArg (Prod.mk _) (by omega))

/-! ## Claim C5: successful batch -/

/-- C5.  For every `count` in `[1, 500]`, when every render+transport
round trip succeeds, `printLabels count` succeeds, invokes the pipeline
exactly `count` times — the attempted labels are `(i, gen + i - 1)` for
`i = 1..count` — and the uuid tokens handed to the transport are strictly
increasing in generation order, hence pairwise distinct. -/
theorem printLabels_success_distinct_increasing (count : Int) (gen : Nat)
    (device : Nat → DeviceResult) (h1 : 1 ≤ count) (h2 : count ≤ 500)
    (hdev : ∀ j, 1 ≤ j → j ≤ count.toNat → device j = .ok) :
    (printLabels false gen count device).result = .ok () ∧
      (printLabels false gen count device).attempted =
        (List.range count.toNat).map (fun j => (1 + j, gen + j)) ∧
      (printLabels false gen count device).attempted.length = count.toNat ∧
      List.Pairwise (· < ·)
        ((printLabels false gen count device).attempted.map Prod.snd) ∧
      List.Pairwise (· ≠ ·)
        ((printLabels false gen count device).attempted.map Prod.snd) := by
  have hv : ¬(count < 1 ∨ count > 500) := by omega
  have hloop := printLoop_all_ok device count.toNat count.toNat gen 1
    (fun j hj1 hj2 => hdev j hj1 (by omega))
  have hatt : (printLabels false gen count device).attempted =
      (List.range count.toNat).map (fun j => (1 + j, gen + j)) := by
    simp [printLabels, hv, hloop]
  have hsnd : (printLabels false gen count device).attempted.map Prod.snd =
      (List.range count.toNat).map (fun j => gen + j) := by
    rw [hatt, List.map_map]
    exact List.map_congr_left fun j _ => rfl
  have hlt : List.Pairwise (· < ·)
      ((printLabels false gen count device).attempted.map Prod.snd) := by
    rw [hsnd]
    exact (List.pairwise_lt_range count.toNat).map _
      (fun a b hab => Nat.add_lt_add_left hab gen)
  refine ⟨?_, hatt, ?_, hlt, hlt.imp Nat.ne_of_lt⟩
  · simp [printLabels, hv, hloop]
  · rw [hatt]; simp

/-- Witness for C5: a 3-label batch with an all-ok device. -/
theorem printLabels_success_distinct_increasing_witness :
    (printLabels false 10 3 (fun _ => .ok)).result = .ok () ∧
      (printLabels false 10 3 (fun _ => .ok)).attempted =
        [(1, 10), (2, 11), (3, 12)] := by
  have h := printLabels_success_distinct_increasing 3 10 (fun _ => .ok)
    (by decide) (by decide) (fun j _ _ => rfl)
  exact ⟨h.1, by rw [h.2.1]; rfl⟩

/-! ## Claim C9: failure mid-batch -/

/-- C9.  In a batch of `n` labels in which the first `i - 1` round trips
succeed and the `i`-th fails, exactly labels `1..i` are attempted (labels
`i+1..n` never are), the batch fails with an error citing the failing
index `i`, and after a poll tick whose dispatch failed the failure
counter is 0, so the next tick is scheduled at the plain poll interval. -/
theorem printLabels_fail_aborts_batch (n i gen : Nat)
    (device : Nat → DeviceResult) (s : PollingState) (now : Nat)
    (printOk : Bool) (cfg : PollingConfig)
    (h1 : 1 ≤ i) (h2 : i ≤ n) (h3 : n ≤ 500)
    (hok : ∀ j, 1 ≤ j → j < i → device j = .ok)
    (hbad : device i ≠ .ok) (hp : s.isPrinting = false) :
    (printLabels false gen (n : Int) device).attempted =
        (List.range i).map (fun j => (1 + j, gen + j)) ∧
      (printLabels false gen (n : Int) device).attempted.length = i ∧
      (∃ b, (printLabels false gen (n : Int) device).result =
        .error (.labelFailed i n b)) ∧
      (poll s now (.response ⟨true, true, .numeric (n : Int)⟩)
          printOk).state.consecutiveErrors = 0 ∧
      nextPollDelay cfg
        (poll s now (.response ⟨true, true, .numeric (n : Int)⟩)
          printOk).state.consecutiveErrors = cfg.pollInterval := by
  have hv : ¬((n : Int) < 1 ∨ (n : Int) > 500) := by
    push_neg
    constructor <;> [exact_mod_cast Nat.one_le_cast.mpr (by omega);
      exact_mod_cast Nat.cast_le.mpr h3]
  obtain ⟨b, hb⟩ : ∃ b : Bool,
      device i = (if b then .printerErr else .otherErr) := by
    cases hd : device i with
    | ok => exact absurd hd hbad
    | printerErr => exact ⟨true, rfl⟩
    | otherErr => exact ⟨false, rfl⟩
  have hloop := printLoop_fail_at device ((n : Int)).toNat (i - 1)
    ((n : Int)).toNat gen 1 b (by simp; omega)
    (fun j hj1 hj2 => hok j hj1 (by omega))
    (by rw [show 1 + (i - 1) = i by omega]; exact hb)
  rw [show 1 + (i - 1) = i by omega, show i - 1 + 1 = i by omega] at hloop
  simp only [Int.toNat_natCast] at hloop
  have hv' : ¬(n = 0 ∨ 500 < n) := by omega
  have hcount : (poll s now (.response ⟨true, true, .numeric (n : Int)⟩)
      printOk).state.consecutiveErrors = 0 := by
    have hn : (0 : Int) < (n : Int) := by exact_mod_cast Nat.pos_of_ne_zero (by omega)
    simp [poll, hp, fetchLabelCount, hn]
  refine ⟨?_, ?_, ⟨b, ?_⟩, hcount, ?_⟩
  · simp [printLabels, hv', hloop]
  · simp [printLabels, hv', hloop]
  · simp [printLabels, hv', hloop]
  · rw [hcount]; simp [nextPollDelay]

/-- Witness for C9: label 2 of a 5-label batch fails at the transport
step; labels 1 and 2 are attempted, the error cites index 2, and the
tick's follow-up schedule uses the plain poll interval. -/
theorem printLabels_fail_aborts_batch_witness :
    (printLabels false 0 ((5 : Nat) : Int)
        (fun j => if j = 2 then .otherErr else .ok)).attempted =
        [(1, 0), (2, 1)] ∧
      (∃ b, (printLabels false 0 ((5 : Nat) : Int)
          (fun j => if j = 2 then .otherErr else .ok)).result =
        .error (.labelFailed 2 5 b)) ∧
      nextPollDelay (loadConfig none none none)
        (poll ⟨true, false, 4, none⟩ 0
          (.response ⟨true, true, .numeric ((5 : Nat) : Int)⟩)
          false).state.consecutiveErrors =
        (loadConfig none none none).pollInterval := by
  have h := printLabels_fail_aborts_batch 5 2 0
    (fun j => if j = 2 then .otherErr else .ok) ⟨true, false, 4, none⟩ 0
    false (loadConfig none none none) (by decide) (by decide) (by decide)
    (fun j hj1 hj2 => by
      have : j = 1 := by omega
      subst this
      rfl)
    (by decide) rfl
  exact ⟨by rw [h.1]; rfl, h.2.2.1, h.2.2.2.2⟩

/-! ## Claim C10: the busy flag cannot wedge -/

/-- Counterexample to C10.  A call rejected by the busy guard returns
with `isPrinting` still true (it is held by the in-progress batch the
guard detected), not false as the claim states. -/
theorem busy_rejection_leaves_flag_set :
    (printLabels true 0 3 (fun _ => .ok)).result = .error .busy ∧
      (printLabels true 0 3 (fun _ => .ok)).isPrintingAfter = true ∧
      ¬ (printLabels true 0 3 (fun _ => .ok)).isPrintingAfter = false :=
  ⟨rfl, rfl, by decide⟩

/-- C10 amended.  `printLabels` always returns with `isPrinting` exactly
as it found it: every path that sets the flag clears it in its `finally`
(success or mid-batch failure), and the validation/busy rejections never
touch it — so no single call can leave the flag newly stuck.  Likewise a
poll tick always returns with the polling service's `isPrinting` as it
found it: `handlePrintRequest` clears it after every dispatch regardless
of outcome. -/
theorem isPrinting_restored_on_return :
    (∀ (b : Bool) (gen : Nat) (count : Int) (device : Nat → DeviceResult),
        (printLabels b gen count device).isPrintingAfter = b) ∧
    (∀ (s : PollingState) (now : Nat) (fetch : FetchOutcome) (printOk : Bool),
        (poll s now fetch printOk).state.isPrinting = s.isPrinting) := by
  constructor
  · intro b gen count device
    by_cases hv : count < 1 ∨ count > 500
    · simp [printLabels, hv]
    · cases b <;> simp [printLabels, hv]
  · intro s now fetch printOk
    by_cases hp : s.isPrinting
    · simp [poll, hp]
    · cases hf : fetchLabelCount fetch with
      | error e => simp [poll, hp, hf]
      | ok n =>
        by_cases hn : n > 0 <;> simp [poll, hp, hf, hn]

end GBPrint
